import Mathlib

/-!
# Verification of the GreenPath page script (`src/file.js`)

Shallow embedding of the trip-based CO₂ emissions calculator, its persisted
store, the hero-carousel index state machine and the progress-bar rendering
from `src/file.js`.  JavaScript numbers are modelled as rationals (`ℚ`); the
values actually manipulated by the calculator are exact in ℚ.  JavaScript's
`%` on integer-valued numbers is truncated remainder, modelled by `Int.tmod`.
The platform's `JSON.stringify` / `JSON.parse` builtins are modelled at the
value level by an inductive `Json` type: a stored cell holds either the JSON
value a well-formed string denotes, or `corrupt` for a string `JSON.parse`
throws on.  Browser DOM side effects (table, chart, aria announcements) carry
no state relevant to the claims and are elided.
-/

namespace GreenPath

/-- JSON values, the model of what `JSON.parse` returns / `JSON.stringify`
consumes.  Numbers are rationals. -/
inductive Json where
  | null : Json
  | bool : Bool → Json
  | num : ℚ → Json
  | str : String → Json
  | arr : List Json → Json
  | obj : List (String × Json) → Json

/-- A stored string cell as seen through `JSON.parse`: either it denotes a
JSON value, or parsing it throws (`corrupt`). -/
inductive Stored where
  | json : Json → Stored
  | corrupt : Stored

/-- One trip record, as created by `addTrip` in `src/file.js` line 278:
`{ date, vehicle, distance, emissions }`. -/
structure Trip where
  date : String
  vehicle : String
  distance : ℚ
  emissions : ℚ
deriving DecidableEq, Repr

/-- Line 8 of `src/file.js`: the local-storage key for the trip list. -/
def STORAGE_KEY : String := "greenpath-trips-v1"

/-- Line 11 of `src/file.js`:
`EMISSION_RATES = { car: 0.21, motorbike: 0.10, bus: 0.05, bicycle: 0 }`. -/
def EMISSION_RATES : List (String × ℚ) :=
  [("car", 21/100), ("motorbike", 10/100), ("bus", 5/100), ("bicycle", 0)]

/-- Lookup `EMISSION_RATES[vehicle] || 0` (`src/file.js` line 276): object lookup
with fallback 0 for an unknown key.  (The `|| 0` also maps the stored rate 0
of `bicycle` to 0, so `getD 0` is exact.) -/
def rateOf (vehicle : String) : ℚ :=
  (EMISSION_RATES.lookup vehicle).getD 0

/-- Rounding `Number(x.toFixed(2))` (`src/file.js` line 277): rounding to two decimal
places.  `toFixed` rounds to the nearest hundredth; the claims never exercise
an exact decimal tie. -/
def round2 (q : ℚ) : ℚ :=
  ((round (q * 100) : ℤ) : ℚ) / 100

/-- JSON encoding of one trip, the shape `JSON.stringify` receives from
`persist` (`src/file.js` lines 230-233 and 278). -/
def encodeTrip (t : Trip) : Json :=
  .obj [("date", .str t.date), ("vehicle", .str t.vehicle),
        ("distance", .num t.distance), ("emissions", .num t.emissions)]

/-- JSON encoding of the whole trip list (a JSON array). -/
def encodeTrips (l : List Trip) : Json :=
  .arr (l.map encodeTrip)

/-- JavaScript property access `j[k]` on a parsed JSON value: a key lookup
on an object, `undefined` (here `none`) otherwise. -/
def getField (j : Json) (k : String) : Option Json :=
  match j with
  | .obj fields => fields.lookup k
  | _ => none

/-- Reads a string-valued field as the JS code does (`t.date`, `t.vehicle`). -/
def asStr : Option Json → Option String
  | some (.str s) => some s
  | _ => none

/-- Reads a number-valued field as the JS code does (`t.distance`,
`t.emissions`). -/
def asNum : Option Json → Option ℚ
  | some (.num q) => some q
  | _ => none

/-- Reading one trip from a parsed JSON element: the field accesses
`t.date`, `t.vehicle`, `t.distance`, `t.emissions` performed by the renderers
and the total accumulator on the objects `JSON.parse` produced. -/
def decodeTrip? (j : Json) : Option Trip := do
  let date ← asStr (getField j "date")
  let vehicle ← asStr (getField j "vehicle")
  let distance ← asNum (getField j "distance")
  let emissions ← asNum (getField j "emissions")
  pure ⟨date, vehicle, distance, emissions⟩

/-- Reading the trip list from a parsed JSON value.  Only a JSON array of
well-shaped trip objects denotes a trip list; `persist` writes exactly that
shape. -/
def decodeTrips? : Json → Option (List Trip)
  | .arr xs => xs.mapM decodeTrip?
  | _ => none

/-- Line 226 of `src/file.js`:
`try { trips = JSON.parse(localStorage.getItem(STORAGE_KEY)) || []; }
 catch (e) { trips = []; }`.
An absent key gives `null` (falsy, `|| []` yields `[]`); an unparsable string
throws and the catch yields `[]`; a parsed falsy value (`null`, `false`, ...)
also falls to `[]` via `|| []`.  A parsed value that is not a list of trip
objects is outside every behaviour the program itself can create and is
mapped to `[]` here. -/
def loadTrips : Option Stored → List Trip
  | some (.json j) => (decodeTrips? j).getD []
  | _ => []

/-- The mutable state of the `calculator` closure (`src/file.js` lines
215-318): the trip list, the running total, and the storage cell at
`STORAGE_KEY` it persists into. -/
structure CalcState where
  trips : List Trip
  totalEmissions : ℚ
  storage : Option Stored

/-- Function `persist()` (`src/file.js` lines 230-233):
`localStorage.setItem(STORAGE_KEY, JSON.stringify(trips))`. -/
def persist (s : CalcState) : CalcState :=
  { s with storage := some (.json (encodeTrips s.trips)) }

/-- Function `addTrip(vehicle, distance)` (`src/file.js` lines 275-287).  The record's
`date` field is `new Date().toLocaleDateString()`; the environment's current
date is passed in as `today`. -/
def addTrip (today vehicle : String) (distance : ℚ) (s : CalcState) : CalcState :=
  let rate := rateOf vehicle
  let emissions := round2 (distance * rate)
  let trip : Trip := ⟨today, vehicle, distance, emissions⟩
  persist { s with
    trips := s.trips ++ [trip],
    totalEmissions := s.totalEmissions + emissions }

/-- Function `clearTrips()` (`src/file.js` line 315):
`trips = []; totalEmissions = 0; persist(); ...`. -/
def clearTrips (s : CalcState) : CalcState :=
  persist { s with trips := [], totalEmissions := 0 }

/-- Initial load (`src/file.js` lines 225-228): read the trip list from
storage, then `totalEmissions = trips.reduce((s, t) => s + Number(t.emissions || 0), 0)`. -/
def initState (storage : Option Stored) : CalcState :=
  let trips := loadTrips storage
  { trips := trips,
    totalEmissions := trips.foldl (fun acc t => acc + t.emissions) 0,
    storage := storage }

/-- The state-changing operations the page can perform on the calculator
after load. -/
inductive Op where
  | add (today vehicle : String) (distance : ℚ)
  | clear

/-- Apply one operation. -/
def applyOp (s : CalcState) : Op → CalcState
  | .add today vehicle distance => addTrip today vehicle distance s
  | .clear => clearTrips s

/-- Run a sequence of operations. -/
def run (s : CalcState) (ops : List Op) : CalcState :=
  ops.foldl applyOp s

/-- Function `updateProgress()` (`src/file.js` line 256):
`Math.min((totalEmissions / 50) * 100, 100)`, the progress-bar width in
percent. -/
def progressPercent (totalEmissions : ℚ) : ℚ :=
  min (totalEmissions / 50 * 100) 100

/-- The form submit handler (`src/file.js` lines 297-309).  `vehicle?` is
`form.querySelector('#vehicle')?.value`: `none` models a missing element
(`undefined`); `distance?` is `Number(distanceStr)`: `none` models `NaN`.
The guard `!vehicle || Number.isNaN(distance) || distance <= 0` rejects
(focus side effect elided); otherwise `addTrip(vehicle, distance)` runs. -/
def submit (today : String) (vehicle? : Option String) (distance? : Option ℚ)
    (s : CalcState) : CalcState :=
  match vehicle?, distance? with
  | some v, some d => if v ≠ "" ∧ 0 < d then addTrip today v d s else s
  | _, _ => s

/-- Transition `goTo(n)` of the hero carousel (`src/file.js` line 116):
`current = ((n % count) + count) % count`, with JavaScript's truncated `%`
(`Int.tmod`). -/
def goTo (count n : ℤ) : ℤ :=
  (Int.tmod n count + count).tmod count

/-- Transition `next()` (`src/file.js` line 138): `goTo(current + 1)`. -/
def nextSlide (count current : ℤ) : ℤ :=
  goTo count (current + 1)

/-- Transition `prev()` (`src/file.js` line 139): `goTo(current - 1)`. -/
def prevSlide (count current : ℤ) : ℤ :=
  goTo count (current - 1)

/-- A heap of JavaScript arrays of trips, to model array identity and
in-place mutation for the `getTrips()` copy claim.  A reference is an index
into the heap. -/
structure ArrayHeap where
  cells : List (List Trip)

/-- Allocate a fresh array with the given contents; returns the new heap and
the fresh reference. -/
def allocArr (h : ArrayHeap) (xs : List Trip) : ArrayHeap × Nat :=
  (⟨h.cells ++ [xs]⟩, h.cells.length)

/-- Read the contents of an array through its reference. -/
def readArr (h : ArrayHeap) (r : Nat) : List Trip :=
  h.cells[r]?.getD []

/-- Mutate an array in place through its reference (models `push`,
`length = 0`, splice, ... on the JS array: any in-place change of contents). -/
def writeArr (h : ArrayHeap) (r : Nat) (xs : List Trip) : ArrayHeap :=
  ⟨h.cells.set r xs⟩

/-- Function `getTrips: () => trips.slice()` (`src/file.js` line 314): allocate a
fresh array holding a copy of the internal list and return its reference. -/
def getTrips (h : ArrayHeap) (tripsRef : Nat) : ArrayHeap × Nat :=
  allocArr h (readArr h tripsRef)

/-- The part of the calculator closure a caller of the debug API can see:
the heap, the reference held in the closure variable `trips`, and the plain
number `totalEmissions` (not heap-allocated). -/
structure DebugState where
  heap : ArrayHeap
  tripsRef : Nat
  totalEmissions : ℚ

/-- A caller mutating an array it holds a reference to (e.g. `push` or
emptying the array returned by `getTrips()`). -/
def mutateRef (st : DebugState) (r : Nat) (xs : List Trip) : DebugState :=
  { st with heap := writeArr st.heap r xs }

/-! ## Helper lemmas -/

theorem rateOf_unknown (v : String) (h : v ∉ ["car", "motorbike", "bus", "bicycle"]) :
    rateOf v = 0 := by
  simp only [List.mem_cons, List.mem_singleton, not_or] at h
  obtain ⟨h1, h2, h3, h4, -⟩ := h
  have e1 : (v == "car") = false := beq_eq_false_iff_ne.mpr h1
  have e2 : (v == "motorbike") = false := beq_eq_false_iff_ne.mpr h2
  have e3 : (v == "bus") = false := beq_eq_false_iff_ne.mpr h3
  have e4 : (v == "bicycle") = false := beq_eq_false_iff_ne.mpr h4
  simp [rateOf, EMISSION_RATES, List.lookup, e1, e2, e3, e4]

theorem round2_zero : round2 0 = 0 := by
  simp [round2]

theorem neg_tmod (a b : ℤ) : (-a).tmod b = -(a.tmod b) := by
  rw [Int.tmod_def, Int.tmod_def, Int.neg_tdiv]; ring

theorem tmod_lower_bound (n c : ℤ) (hc : 0 < c) : -c < n.tmod c := by
  rcases le_or_lt 0 n with hn | hn
  · have := Int.tmod_nonneg c hn
    linarith
  · have h1 : (-n).tmod c < c := Int.tmod_lt_of_pos (-n) hc
    have h2 : (-n).tmod c = -(n.tmod c) := neg_tmod n c
    linarith

/-- The value `((n % count) + count) % count` with JavaScript's truncated `%` equals
the mathematical (Euclidean) remainder, for positive `count`. -/
theorem goTo_eq_emod (count n : ℤ) (h : 0 < count) : goTo count n = n % count := by
  unfold goTo
  have h1 : 0 ≤ Int.tmod n count + count := by
    have := tmod_lower_bound n count h
    linarith
  rw [Int.tmod_eq_emod h1 (le_of_lt h)]
  have h2 : (Int.tmod n count + count) % count = Int.tmod n count % count := by
    conv_lhs => rw [show Int.tmod n count + count = Int.tmod n count + count * 1 by ring]
    rw [Int.add_mul_emod_self_left]
  rw [h2, Int.tmod_def]
  have h3 : n - count * n.tdiv count = n + count * (-(n.tdiv count)) := by ring
  rw [h3, Int.add_mul_emod_self_left]

theorem goTo_nonneg (count n : ℤ) (h : 0 < count) : 0 ≤ goTo count n := by
  rw [goTo_eq_emod count n h]
  exact Int.emod_nonneg n (ne_of_gt h)

theorem goTo_lt (count n : ℤ) (h : 0 < count) : goTo count n < count := by
  rw [goTo_eq_emod count n h]
  exact Int.emod_lt_of_pos n h

theorem decode_encode_trip (t : Trip) : decodeTrip? (encodeTrip t) = some t := rfl

theorem mapM_decode_encode (l : List Trip) :
    (l.map encodeTrip).mapM decodeTrip? = some l := by
  induction l with
  | nil => rfl
  | cons t ts ih =>
    rw [List.map_cons, List.mapM_cons, decode_encode_trip, ih]
    rfl

theorem decodeTrips_encodeTrips (l : List Trip) :
    decodeTrips? (encodeTrips l) = some l :=
  mapM_decode_encode l

theorem foldl_add_emissions (l : List Trip) (a : ℚ) :
    l.foldl (fun acc t => acc + t.emissions) a = a + (l.map Trip.emissions).sum := by
  induction l generalizing a with
  | nil => simp
  | cons t ts ih => simp [ih]; ring

/-- The running-total invariant is preserved by every operation. -/
theorem inv_applyOp (s : CalcState) (op : Op)
    (h : s.totalEmissions = (s.trips.map Trip.emissions).sum) :
    (applyOp s op).totalEmissions = ((applyOp s op).trips.map Trip.emissions).sum := by
  cases op with
  | add today v d => simp [applyOp, addTrip, persist, h]
  | clear => simp [applyOp, clearTrips, persist]

theorem inv_run (s : CalcState) (ops : List Op)
    (h : s.totalEmissions = (s.trips.map Trip.emissions).sum) :
    (run s ops).totalEmissions = ((run s ops).trips.map Trip.emissions).sum := by
  induction ops generalizing s with
  | nil => exact h
  | cons op ops ih => exact ih (applyOp s op) (inv_applyOp s op h)

theorem inv_initState (storage : Option Stored) :
    (initState storage).totalEmissions
      = ((initState storage).trips.map Trip.emissions).sum := by
  simp [initState, foldl_add_emissions]

/-! ## Claim theorems -/

/-- C1: for every known vehicle kind and positive distance, `addTrip` records
the trip with emissions `round2(distance * rate(vehicle))`, where the rates
are car 0.21, motorbike 0.10, bus 0.05, bicycle 0; for a vehicle kind not
among the four known kinds the rate used is 0, so the emissions are 0. -/
theorem addTrip_emissions_spec (today vehicle : String) (distance : ℚ) (s : CalcState) :
    (0 < distance →
      (addTrip today vehicle distance s).trips.getLast?
        = some ⟨today, vehicle, distance, round2 (distance * rateOf vehicle)⟩)
    ∧ rateOf "car" = 21/100 ∧ rateOf "motorbike" = 10/100
    ∧ rateOf "bus" = 5/100 ∧ rateOf "bicycle" = 0
    ∧ (vehicle ∉ ["car", "motorbike", "bus", "bicycle"] →
        (addTrip today vehicle distance s).trips.getLast?
          = some ⟨today, vehicle, distance, 0⟩) := by
  refine ⟨fun _ => ?_, rfl, rfl, rfl, rfl, fun hv => ?_⟩
  · simp [addTrip, persist, List.getLast?_concat]
  · simp [addTrip, persist, List.getLast?_concat, rateOf_unknown vehicle hv, round2_zero]

/-- Witness for C1 at the unknown vehicle kind `"plane"` and distance 5. -/
theorem addTrip_emissions_spec_witness :
    (addTrip "10/11/2026" "plane" 5 (initState none)).trips.getLast?
      = some ⟨"10/11/2026", "plane", 5, 0⟩ :=
  (addTrip_emissions_spec "10/11/2026" "plane" 5 (initState none)).2.2.2.2.2
    (by decide)

/-- C2: for every integer `n` (negative included) and positive slide count,
`goTo n` sets the index to `((n % count) + count) % count` (JavaScript
truncated `%`), and the index after `goTo`, `next` and `prev` always lies in
`0 .. count - 1`. -/
theorem goTo_wraps_and_in_range (count n current : ℤ) (h : 0 < count) :
    goTo count n = (Int.tmod n count + count).tmod count
    ∧ goTo count n = n % count
    ∧ 0 ≤ goTo count n ∧ goTo count n < count
    ∧ 0 ≤ nextSlide count current ∧ nextSlide count current < count
    ∧ 0 ≤ prevSlide count current ∧ prevSlide count current < count :=
  ⟨rfl, goTo_eq_emod count n h,
   goTo_nonneg count n h, goTo_lt count n h,
   goTo_nonneg count (current + 1) h, goTo_lt count (current + 1) h,
   goTo_nonneg count (current - 1) h, goTo_lt count (current - 1) h⟩

/-- Witness for C2 at `count = 5`, `n = -7`, `current = 0`. -/
theorem goTo_wraps_and_in_range_witness :
    goTo 5 (-7) = (-7 : ℤ) % 5 ∧ 0 ≤ goTo 5 (-7) ∧ goTo 5 (-7) < 5 :=
  ⟨(goTo_wraps_and_in_range 5 (-7) 0 (by decide)).2.1,
   (goTo_wraps_and_in_range 5 (-7) 0 (by decide)).2.2.1,
   (goTo_wraps_and_in_range 5 (-7) 0 (by decide)).2.2.2.1⟩

/-- C3: after loading from any storage contents and then running any sequence
of `addTrip` / `clearTrips` operations, the running total equals the sum of
the `emissions` fields of the trips in the list. -/
theorem total_eq_sum_of_emissions (storage : Option Stored) (ops : List Op) :
    (run (initState storage) ops).totalEmissions
      = ((run (initState storage) ops).trips.map Trip.emissions).sum :=
  inv_run (initState storage) ops (inv_initState storage)

/-- C4: saving the trip list to the storage key and then loading reproduces
an equal list, both for the persisted state and for an arbitrary list written
at the key. -/
theorem save_load_roundtrip (s : CalcState) (l : List Trip) :
    loadTrips (persist s).storage = s.trips
    ∧ loadTrips (some (.json (encodeTrips l))) = l := by
  constructor
  · simp [persist, loadTrips, decodeTrips_encodeTrips]
  · simp [loadTrips, decodeTrips_encodeTrips]

/-- C5: `load()` returns the empty trip list when the storage key is absent
(`getItem` yields `null`) and when the stored value fails to parse as JSON
(the `catch` branch); both are total, no error reaches the caller. -/
theorem load_absent_or_corrupt_empty :
    loadTrips none = [] ∧ loadTrips (some .corrupt) = [] :=
  ⟨rfl, rfl⟩

/-- C6: the progress-bar percentage is `min(total / 50 * 100, 100)`, and for
every total ≥ 50 it is exactly 100. -/
theorem progress_percent_clamped (total : ℚ) :
    progressPercent total = min (total / 50 * 100) 100
    ∧ (50 ≤ total → progressPercent total = 100) := by
  refine ⟨rfl, fun h => ?_⟩
  unfold progressPercent
  rw [min_eq_right]
  linarith

/-- Witness for C6 at total 60 (≥ 50, clamped to 100). -/
theorem progress_percent_clamped_witness : progressPercent 60 = 100 :=
  (progress_percent_clamped 60).2 (by norm_num)

/-- C7: `clearTrips()` empties the trip list and zeroes the running total
from any prior state, and loading from the storage it persisted yields the
empty list. -/
theorem clearTrips_resets (s : CalcState) :
    (clearTrips s).trips = []
    ∧ (clearTrips s).totalEmissions = 0
    ∧ loadTrips (clearTrips s).storage = [] :=
  ⟨rfl, rfl, rfl⟩

/-- C8: `getTrips()` returns a reference to a fresh array whose contents
equal the internal trip list; mutating the returned array leaves the internal
trip list and the running total unchanged. -/
theorem getTrips_returns_copy (st : DebugState)
    (href : st.tripsRef < st.heap.cells.length) :
    readArr (getTrips st.heap st.tripsRef).1 (getTrips st.heap st.tripsRef).2
      = readArr st.heap st.tripsRef
    ∧ (getTrips st.heap st.tripsRef).2 ≠ st.tripsRef
    ∧ ∀ xs : List Trip,
        readArr (mutateRef { st with heap := (getTrips st.heap st.tripsRef).1 }
            (getTrips st.heap st.tripsRef).2 xs).heap st.tripsRef
          = readArr st.heap st.tripsRef
        ∧ (mutateRef { st with heap := (getTrips st.heap st.tripsRef).1 }
            (getTrips st.heap st.tripsRef).2 xs).totalEmissions
          = st.totalEmissions := by
  refine ⟨?_, ?_, fun xs => ⟨?_, rfl⟩⟩
  · simp [getTrips, allocArr, readArr, List.getElem?_concat_length]
  · simp only [getTrips, allocArr]
    exact fun hEq => absurd hEq.symm (ne_of_lt href)
  · simp only [getTrips, allocArr, mutateRef, writeArr, readArr]
    rw [List.getElem?_set_ne (by omega)]
    rw [List.getElem?_append_left href]

/-- Witness for C8: a one-cell heap holding one trip; emptying the copy
leaves the original readable unchanged. -/
theorem getTrips_returns_copy_witness :
    readArr (mutateRef
        { heap := ⟨[[⟨"d", "car", 1, 1⟩]] ++ [readArr ⟨[[⟨"d", "car", 1, 1⟩]]⟩ 0]⟩,
          tripsRef := 0, totalEmissions := 1 } 1 []).heap 0
      = readArr (⟨[[⟨"d", "car", 1, 1⟩]]⟩ : ArrayHeap) 0 :=
  ((getTrips_returns_copy
      ⟨⟨[[⟨"d", "car", 1, 1⟩]]⟩, 0, 1⟩ (by decide)).2.2 []).1

/-- C9: from the empty state, adding one trip (car, 100 km) yields one trip
whose emissions are exactly 21 kg and a progress-bar percentage of exactly
42. -/
theorem scenario_car_100km :
    (addTrip "10/11/2026" "car" 100 (initState none)).trips.length = 1
    ∧ ((addTrip "10/11/2026" "car" 100 (initState none)).trips.map Trip.emissions)
        = [21]
    ∧ progressPercent (addTrip "10/11/2026" "car" 100 (initState none)).totalEmissions
        = 42 := by
  refine ⟨rfl, ?_, ?_⟩
  · norm_num [addTrip, initState, loadTrips, persist, round2, rateOf,
      EMISSION_RATES, List.lookup, round_eq]
  · norm_num [addTrip, initState, loadTrips, persist, progressPercent, round2,
      rateOf, EMISSION_RATES, List.lookup, round_eq]

/-- C10: `addTrip` performs no validation: for every distance (zero and
negative included) and every vehicle string it appends exactly one record
with emissions `round2(distance * rate)` and adds that amount to the running
total; the rejection of missing/empty vehicle, NaN and non-positive distance
happens only in the submit handler, which otherwise calls `addTrip`. -/
theorem addTrip_no_validation (today vehicle : String) (distance : ℚ) (s : CalcState) :
    (addTrip today vehicle distance s).trips
      = s.trips ++ [⟨today, vehicle, distance, round2 (distance * rateOf vehicle)⟩]
    ∧ (addTrip today vehicle distance s).totalEmissions
      = s.totalEmissions + round2 (distance * rateOf vehicle)
    ∧ (∀ d? : Option ℚ, submit today none d? s = s)
    ∧ (∀ d? : Option ℚ, submit today (some "") d? s = s)
    ∧ submit today (some vehicle) none s = s
    ∧ (distance ≤ 0 → submit today (some vehicle) (some distance) s = s)
    ∧ (vehicle ≠ "" → 0 < distance →
        submit today (some vehicle) (some distance) s
          = addTrip today vehicle distance s) := by
  refine ⟨rfl, rfl, fun d? => rfl, fun d? => ?_, rfl, fun hd => ?_, fun hv hd => ?_⟩
  · cases d? with
    | none => rfl
    | some d => simp [submit]
  · simp only [submit]
    exact if_neg (fun hc => absurd hd (not_le.mpr hc.2))
  · simp [submit, hv, hd]

/-- Witness for C10: `addTrip` with the negative distance -3 still appends a
record (with negative emissions -0.63), while the submit handler rejects the
same input. -/
theorem addTrip_no_validation_witness :
    (addTrip "10/11/2026" "car" (-3) (initState none)).trips
      = [] ++ [⟨"10/11/2026", "car", -3, round2 ((-3) * rateOf "car")⟩]
    ∧ submit "10/11/2026" (some "car") (some (-3)) (initState none) = initState none :=
  ⟨(addTrip_no_validation "10/11/2026" "car" (-3) (initState none)).1,
   (addTrip_no_validation "10/11/2026" "car" (-3) (initState none)).2.2.2.2.2.1
     (by norm_num)⟩

end GreenPath
